import Mathlib

/-!
# git-opener: the selection list and the tmux provisioning workflow

A shallow embedding of `src/main.go` (the `NaviTable` list and `OpenProject`) and of
`pkg/tmuxxer/tmuxxer.go` (the tmux driver), followed by the properties proved about them.

Conventions of the embedding:

* Every widget handle of `NaviTable` (`table`, `flex`, `helpBar`, `app`, `searchInput`,
  `originalFocus`) is left out: the calls made on them draw cells, move focus or lay out the
  screen, and none of them reads or writes `items`, `allItems`, `current`, `searchMode` or
  `searchText`. `tview.Table.GetCell` hands back a cell for every position, so these calls do
  not fail either.
* A Go slice is a `List`; `nil` and the empty slice are both `[]` (the code only ever tests
  `len`).
* Go's `int` is `Int`. The only arithmetic on `current` is `+1`, `-1` and `= 0`.
* A Go string is a `String`; `strings.Contains` is taken over the characters, which for valid
  UTF-8 text agrees with the byte-wise search of Go.
* An external command is a value of `Cmd`; the environment that answers the commands is a
  `World`, and the calls made so far are kept, in order, in a `Trace`.
-/

namespace GitOpener

/-! ## Standard-library functions used by the source -/

/-- The functions of the Go standard library whose behaviour rests on tables that are not part of
the repository: `strings.ToLower`, `strings.TrimSpace` and `strconv.Atoi` (`none` when it
reports an error). Every definition that calls one of them takes this record as a parameter.
The one fact about them that is relied on is that lower-casing the empty string gives the empty
string. -/
structure StdLib where
  toLower : String → String
  trimSpace : String → String
  atoi : String → Option Int
  toLower_empty : toLower "" = ""

/-- Lower-casing of the ASCII letters of a string. -/
def asciiToLower (s : String) : String :=
  String.mk (s.data.map Char.toLower)

/-- Whether a character is ASCII white space. -/
def isAsciiSpace (c : Char) : Bool :=
  c == ' ' || c == '\t' || c == '\n' || c == '\r'

/-- Removal of leading and trailing ASCII white space. -/
def asciiTrimSpace (s : String) : String :=
  String.mk ((s.data.dropWhile isAsciiSpace).reverse.dropWhile isAsciiSpace).reverse

/-- Value of a list of decimal digits, `none` when a character is not a digit. -/
def digitsValue : List Char → Nat → Option Nat
  | [], acc => some acc
  | c :: cs, acc =>
    if c.isDigit then digitsValue cs (acc * 10 + (c.toNat - '0'.toNat)) else none

/-- Decimal parsing with an optional sign, as `strconv.Atoi` does for short inputs. -/
def asciiAtoi (s : String) : Option Int :=
  match s.data with
  | [] => none
  | '-' :: cs => if cs.isEmpty then none else (digitsValue cs 0).map (fun n => - (n : Int))
  | '+' :: cs => if cs.isEmpty then none else (digitsValue cs 0).map (fun n => (n : Int))
  | cs => (digitsValue cs 0).map (fun n => (n : Int))

/-- An instance of `StdLib` that is right on ASCII text, used to evaluate the definitions on
concrete inputs. -/
def asciiLib : StdLib :=
  { toLower := asciiToLower, trimSpace := asciiTrimSpace, atoi := asciiAtoi,
    toLower_empty := rfl }

/-- Search of `substr` at every position of `s`, the way `strings.Index` scans: `substr` is
looked for as a prefix of `s` and then of every tail of `s`. -/
def containsChars : List Char → List Char → Bool
  | [], substr => substr.isEmpty
  | c :: cs, substr => substr.isPrefixOf (c :: cs) || containsChars cs substr

/-- Go's `strings.Contains(s, substr)`. -/
def stringsContains (s substr : String) : Bool :=
  containsChars s.data substr.data

/-! ## The selection list (`src/main.go`) -/

/-- The two closures that `main` binds to list entries: the one of a project
(`OpenProject(project); app.Stop()`) and the one of the "Exit" entry (`app.Stop()`). Neither
touches the `NaviTable`. -/
inductive Click where
  | openProject (project : String)
  | exit
  deriving DecidableEq, Repr

/-- Go's `TableItem`. -/
structure TableItem where
  data : String
  click : Click
  deriving DecidableEq, Repr

/-- Go's `NaviTable`, without the widget handles. -/
structure NaviTable where
  items : List TableItem
  current : Int
  allItems : List TableItem
  searchMode : Bool
  searchText : String
  deriving DecidableEq, Repr

/-- Go's `restoreAllItems`. -/
def restoreAllItems (nav : NaviTable) : NaviTable :=
  if nav.allItems.length == 0 then nav
  else { nav with items := nav.allItems, current := 0 }

/-- The test of the loop body of `filterItems`:
`strings.Contains(strings.ToLower(item.data), strings.ToLower(searchText))`. -/
def itemMatches (lib : StdLib) (searchText : String) (item : TableItem) : Bool :=
  stringsContains (lib.toLower item.data) (lib.toLower searchText)

/-- One round of the `for _, item := range nav.allItems` loop of `filterItems`. -/
def filterStep (lib : StdLib) (searchText : String) (nav : NaviTable) (item : TableItem) :
    NaviTable :=
  if itemMatches lib searchText item then { nav with items := nav.items ++ [item] } else nav

/-- Go's `filterItems`. -/
def filterItems (lib : StdLib) (nav : NaviTable) (searchText : String) : NaviTable :=
  let nav :=
    if nav.allItems.length == 0 then { nav with allItems := nav.items } else nav
  let nav := { nav with items := [] }
  if searchText == "" then restoreAllItems nav
  else
    let nav := nav.allItems.foldl (filterStep lib searchText) nav
    { nav with current := 0 }

/-- Go's `exitSearchMode`. -/
def exitSearchMode (nav : NaviTable) : NaviTable :=
  if !nav.searchMode then nav
  else restoreAllItems { nav with searchMode := false, searchText := "" }

/-- Go's `showSearchInput`: the part after the search field has been built. The field is emptied
with `SetText("")`; if the widget library reports that as a change of text, the report is the
`changed` event of `Event` below, delivered right after. -/
def showSearchInput (nav : NaviTable) : NaviTable :=
  { nav with searchMode := true, searchText := "" }

/-- Go's `CreateNavTable`. -/
def CreateNavTable : NaviTable :=
  { items := [], current := 0, allItems := [], searchMode := false, searchText := "" }

/-- Go's `AddItem`. -/
def AddItem (nav : NaviTable) (data : String) (callback : Click) : NaviTable :=
  { nav with items := nav.items ++ [{ data := data, click := callback }] }

/-- The list state that `main` has built when the event loop starts: one entry per project, the
snapshot into `allItems`, then the "Exit" entry. -/
def mainTable (projects : List String) : NaviTable :=
  let navTable :=
    projects.foldl (fun nav project => AddItem nav project (Click.openProject project))
      CreateNavTable
  let navTable :=
    { navTable with allItems := navTable.items, searchMode := false, searchText := "" }
  AddItem navTable "Exit" Click.exit

/-- The key presses that the handlers tell apart: `tcell.KeyEnter`, `tcell.KeyEsc`,
`tcell.KeyDown`, `tcell.KeyUp`, and a printable character (`event.Rune()`). -/
inductive Key where
  | enter
  | esc
  | down
  | up
  | rune (r : Char)
  deriving DecidableEq, Repr

/-- What a handler did besides changing the list state: it called the click function of an
entry, it called `app.Stop()`, or it showed the help dialog. -/
inductive Effect where
  | click (c : Click)
  | stop
  | help
  deriving DecidableEq, Repr

/-- Result of a handler: the list state it leaves, whether it returned `nil` (the event is
consumed), and the effect it had. When the effect is a click, `nav` is the list state at the
moment the click function is called. -/
structure Handled where
  nav : NaviTable
  consumed : Bool
  effect : Option Effect
  deriving DecidableEq, Repr

/-- Go's `nav.items[nav.current]`: `none` stands for the run-time panic of an index out of
range. -/
def itemAt (items : List TableItem) (i : Int) : Option TableItem :=
  if i < 0 then none else items[i.toNat]?

/-- Go's `Move`, the input capture of the layout. `none` is a run-time panic. -/
def Move (nav : NaviTable) (event : Key) : Option Handled :=
  if nav.searchMode && event != Key.esc then
    some { nav := nav, consumed := false, effect := none }
  else
    match event with
    | Key.enter =>
      if nav.items.length > 0 then
        (itemAt nav.items nav.current).map
          (fun item => { nav := nav, consumed := true, effect := some (Effect.click item.click) })
      else some { nav := nav, consumed := true, effect := none }
    | Key.esc =>
      if nav.searchMode then
        some { nav := exitSearchMode nav, consumed := true, effect := none }
      else some { nav := nav, consumed := true, effect := some Effect.stop }
    | Key.down =>
      if nav.current + 1 != nav.items.length then
        some { nav := { nav with current := nav.current + 1 }, consumed := true, effect := none }
      else some { nav := nav, consumed := true, effect := none }
    | Key.up =>
      if nav.current != 0 then
        some { nav := { nav with current := nav.current - 1 }, consumed := true, effect := none }
      else some { nav := nav, consumed := true, effect := none }
    | Key.rune r =>
      if r = 'j' then
        if nav.current + 1 != nav.items.length then
          some { nav := { nav with current := nav.current + 1 }, consumed := false,
                 effect := none }
        else some { nav := nav, consumed := false, effect := none }
      else if r = 'k' then
        if nav.current != 0 then
          some { nav := { nav with current := nav.current - 1 }, consumed := false,
                 effect := none }
        else some { nav := nav, consumed := false, effect := none }
      else if r = '?' then
        some { nav := nav, consumed := true, effect := some Effect.help }
      else if r = '/' then
        some { nav := showSearchInput nav, consumed := true, effect := none }
      else some { nav := nav, consumed := false, effect := none }

/-- The input capture that `showSearchInput` installs on the search field. -/
def searchInputCapture (nav : NaviTable) (event : Key) : Handled :=
  match event with
  | Key.down =>
    if nav.items.length > 0 && nav.current + 1 < nav.items.length then
      { nav := { nav with current := nav.current + 1 }, consumed := true, effect := none }
    else { nav := nav, consumed := true, effect := none }
  | Key.up =>
    if nav.items.length > 0 && nav.current > 0 then
      { nav := { nav with current := nav.current - 1 }, consumed := true, effect := none }
    else { nav := nav, consumed := true, effect := none }
  | _ => { nav := nav, consumed := false, effect := none }

/-- The done function that `showSearchInput` installs on the search field. On Enter with a
highlighted entry, the click function is read first, `exitSearchMode` runs, and the click
function is called last. `none` is a run-time panic. -/
def searchDone (nav : NaviTable) (key : Key) : Option Handled :=
  if key = Key.enter then
    if nav.items.length > 0 && nav.current < nav.items.length then
      (itemAt nav.items nav.current).map
        (fun item =>
          let clickFunc := item.click
          { nav := exitSearchMode nav, consumed := true, effect := some (Effect.click clickFunc) })
    else some { nav := exitSearchMode nav, consumed := true, effect := none }
  else if key = Key.esc then
    some { nav := exitSearchMode nav, consumed := true, effect := none }
  else some { nav := nav, consumed := true, effect := none }

/-- The changed function that `showSearchInput` installs on the search field. -/
def searchChanged (lib : StdLib) (nav : NaviTable) (text : String) : NaviTable :=
  filterItems lib { nav with searchText := text } text

/-- What reaches the list: a key press, or the search field reporting its new text (after a
character was typed or removed, or after `SetText`). -/
inductive Event where
  | key (k : Key)
  | changed (text : String)
  deriving DecidableEq, Repr

/-- Delivery of one event. A key goes to `Move` first; when `Move` hands it back and the search
field has the focus (that is, in search mode), it goes to the capture of the field and, if that
hands it back too, to the field itself, which calls the done function on Enter and Esc and
otherwise edits its text (the new text then arrives as a `changed` event). -/
def handleEvent (lib : StdLib) (nav : NaviTable) : Event → Option Handled
  | Event.changed text =>
    some { nav := searchChanged lib nav text, consumed := true, effect := none }
  | Event.key k =>
    match Move nav k with
    | none => none
    | some h =>
      if h.consumed then some h
      else if nav.searchMode then
        let h2 := searchInputCapture nav k
        if h2.consumed then some h2
        else
          match k with
          | Key.enter => searchDone nav Key.enter
          | Key.esc => searchDone nav Key.esc
          | _ => some { nav := nav, consumed := true, effect := none }
      else some h

/-- The list state after one event. -/
def step (lib : StdLib) (nav : NaviTable) (ev : Event) : Option NaviTable :=
  (handleEvent lib nav ev).map (fun h => h.nav)

/-- The list state after a sequence of events, `none` if one of them panics. -/
def run (lib : StdLib) : NaviTable → List Event → Option NaviTable
  | nav, [] => some nav
  | nav, ev :: evs =>
    match step lib nav ev with
    | none => none
    | some nav2 => run lib nav2 evs

/-- The external commands that the driver starts with `exec.Command`, one constructor per call
site. `argv` below gives the program and arguments of each. -/
inductive Cmd where
  | echoTmux
  | hasSession (name : String)
  | listWindows (session_name : String)
  | newSession (name : String) (detach : Bool)
  | sendKeys (session_name window_number cmd : String)
  | attachSession (session_name : String)
  | switchClient (session_name : String)
  | newWindow (session_name window_name : String)
  | renameWindow (session_name : String) (last_window : Int) (window_name : String)
  | selectWindow (session_name window_number : String)
  deriving DecidableEq, Repr

/-- Program and arguments handed to `exec.Command` for each command. -/
def Cmd.argv : Cmd → List String
  | Cmd.echoTmux => ["/bin/bash", "-c", "echo $TMUX"]
  | Cmd.hasSession name => ["tmux", "has-session", "-t", name]
  | Cmd.listWindows session_name =>
    ["/bin/bash", "-c", "tmux list-windows -t " ++ session_name ++ " | wc -l"]
  | Cmd.newSession name detach =>
    ["/bin/bash", "-c",
      " ".intercalate
        (["tmux", "new-session"] ++ (if detach then ["-d"] else []) ++
          ["-s", "\x27" ++ name ++ "\x27"])]
  | Cmd.sendKeys session_name window_number cmd =>
    ["tmux", "send-keys", "-t", session_name ++ ":" ++ window_number, cmd, "C-m"]
  | Cmd.attachSession session_name => ["tmux", "attach-session", "-t", session_name]
  | Cmd.switchClient session_name => ["tmux", "switch-client", "-t", session_name]
  | Cmd.newWindow session_name window_name =>
    ["/bin/bash", "-c",
      " ".intercalate ["tmux", "new-window", "-t", session_name, "-n", window_name]]
  | Cmd.renameWindow session_name last_window window_name =>
    ["tmux", "rename-window", "-t", session_name ++ ":" ++ toString last_window, window_name]
  | Cmd.selectWindow session_name window_number =>
    ["tmux", "select-window", "-t", session_name ++ ":" ++ window_number]

/-- What a finished command gives back: its combined output, and whether `Run` or
`CombinedOutput` returned an error. -/
structure Output where
  output : String
  failed : Bool
  deriving DecidableEq, Repr

/-- The environment: the answer to the command issued as call number `n` (counted from 0).
Since the program is sequential, every course of answers is such a function. -/
abbrev World := Nat → Cmd → Output

/-- The calls made so far, oldest first, each with its answer. -/
abbrev Trace := List (Cmd × Output)

/-- Runs one command: asks the world and records the call. -/
def exec (w : World) (tr : Trace) (c : Cmd) : Output × Trace :=
  let o := w tr.length c
  (o, tr ++ [(c, o)])

/-- Go's `IsTmuxSession`; the result is `(is_session, err != nil)`. -/
def IsTmuxSession (w : World) (tr : Trace) : (Bool × Bool) × Trace :=
  let (o, tr) := exec w tr Cmd.echoTmux
  if o.failed then ((false, true), tr)
  else ((o.output.utf8ByteSize != 1, false), tr)

/-- Go's `HasSession`. -/
def HasSession (w : World) (tr : Trace) (name : String) : Bool × Trace :=
  let (o, tr) := exec w tr (Cmd.hasSession name)
  if o.failed then (false, tr) else (true, tr)

/-- Go's `GetWindowsAmount`; the result is `(num, err != nil)`. -/
def GetWindowsAmount (lib : StdLib) (w : World) (tr : Trace) (session_name : String) :
    (Int × Bool) × Trace :=
  let (o, tr) := exec w tr (Cmd.listWindows session_name)
  if o.failed then ((0, true), tr)
  else
    let parsed_output := lib.trimSpace o.output
    match lib.atoi parsed_output with
    | none => ((0, true), tr)
    | some num => ((num, false), tr)

/-- Go's `CreateSession`; the result is `err != nil`. -/
def CreateSession (w : World) (tr : Trace) (name : String) (detach : Bool) : Bool × Trace :=
  let (o, tr) := exec w tr (Cmd.newSession name detach)
  (o.failed, tr)

/-- Go's `SendKeys`; the result is `err != nil`. -/
def SendKeys (w : World) (tr : Trace) (session_name window_number cmd : String) :
    Bool × Trace :=
  let (o, tr) := exec w tr (Cmd.sendKeys session_name window_number cmd)
  (o.failed, tr)

/-- Go's `ChangeSession`; the result is `err != nil`. -/
def ChangeSession (w : World) (tr : Trace) (session_name : String) : Bool × Trace :=
  let ((is_session, err), tr) := IsTmuxSession w tr
  if err then (true, tr)
  else
    let (o, tr) :=
      exec w tr
        (if is_session then Cmd.switchClient session_name else Cmd.attachSession session_name)
    (o.failed, tr)

/-- Go's `CreateWindow`; the result is `err != nil`. The result of the `new-window` command and
the error of `GetWindowsAmount` are dropped, as in the source. -/
def CreateWindow (lib : StdLib) (w : World) (tr : Trace) (session_name window_name : String) :
    Bool × Trace :=
  let (_, tr) := exec w tr (Cmd.newWindow session_name window_name)
  let ((last_window, _), tr) := GetWindowsAmount lib w tr session_name
  let (o, tr) := exec w tr (Cmd.renameWindow session_name last_window window_name)
  (o.failed, tr)

/-- Go's `SelectWindow`; the result is `err != nil`. -/
def SelectWindow (w : World) (tr : Trace) (session_name window_number : String) :
    Bool × Trace :=
  let (o, tr) := exec w tr (Cmd.selectWindow session_name window_number)
  (o.failed, tr)

/-- Go's `OpenProject`, with the log lines left out; `gitReposPath` is the package variable of
that name. The result is the trace of the calls made. -/
def OpenProject (lib : StdLib) (gitReposPath : String) (w : World) (tr : Trace)
    (name : String) : Trace :=
  let (has, tr) := HasSession w tr name
  if has then (ChangeSession w tr name).2
  else
    let projectPath := gitReposPath ++ "/" ++ name
    let (_, tr) := CreateSession w tr name true
    let (err, tr) := CreateWindow lib w tr name "terminal"
    if err then tr
    else
      let (err, tr) := SendKeys w tr name "1" ("cd " ++ projectPath)
      if err then tr
      else
        let (err, tr) := SendKeys w tr name "1" "vim ."
        if err then tr
        else
          let (err, tr) := SendKeys w tr name "2" ("cd " ++ projectPath)
          if err then tr
          else
            let (err, tr) := SendKeys w tr name "2" "clear"
            if err then tr
            else
              let (err, tr) := SelectWindow w tr name "1"
              if err then tr
              else (ChangeSession w tr name).2

/-! ## Vocabulary of the statements -/

/-- The entry that `main` adds for a project. -/
def projectItem (project : String) : TableItem :=
  { data := project, click := Click.openProject project }

/-- The "Exit" entry that `main` adds last. -/
def exitItem : TableItem :=
  { data := "Exit", click := Click.exit }

/-- The invariant of the list state kept by every event: `current` is not negative, it is a
valid index as soon as there are visible items, and visible items exist as long as the backup
has not been taken. -/
def Inv (nav : NaviTable) : Prop :=
  0 ≤ nav.current ∧ (nav.items ≠ [] → nav.current < nav.items.length) ∧
    (nav.allItems = [] → nav.items ≠ [])

/-- What holds of a list state in search mode once the filter has run: search mode is on, and
whenever there are visible items the backup is not empty and `current` is a valid index. -/
def FilterInv (nav : NaviTable) : Prop :=
  nav.searchMode = true ∧
    (nav.items ≠ [] → nav.allItems ≠ [] ∧ 0 ≤ nav.current ∧ nav.current < nav.items.length)

/-- What holds in search mode for the list of `main`, whatever filter texts were reported: with
projects, the backup is the list of project entries; without projects, the backup is empty
while only "Exit" is visible, or it is the "Exit" entry. -/
def SearchBackup (projects : List String) (nav : NaviTable) : Prop :=
  nav.searchMode = true ∧
    ((projects ≠ [] ∧ nav.allItems = projects.map projectItem) ∨
      (projects = [] ∧
        ((nav.allItems = [] ∧ nav.items = [exitItem]) ∨ nav.allItems = [exitItem])))

/-- The list state of `main` for a root without project directories, after `/` was pressed:
search mode is on, the only visible entry is "Exit", and the backup `allItems` is still
empty. -/
def emptyRootSearch : NaviTable :=
  { items := [exitItem], current := 0, allItems := [], searchMode := true, searchText := "" }

/-- The list state of `main` for the projects `alpha` and `beta` after `/` and two presses of
Down: search mode is on, nothing was typed, and "Exit" is highlighted. -/
def exitHighlighted : NaviTable :=
  { items := [projectItem "alpha", projectItem "beta", exitItem], current := 2,
    allItems := [projectItem "alpha", projectItem "beta"], searchMode := true, searchText := "" }

/-- The list state in which the click function runs when Enter is pressed in search mode: the
state left by `exitSearchMode`, written out. With a backup, the items are the backup and
`current` is 0; without one, items and `current` are untouched. -/
def unwound (nav : NaviTable) : NaviTable :=
  if nav.allItems = [] then
    { items := nav.items, current := nav.current, allItems := [], searchMode := false,
      searchText := "" }
  else
    { items := nav.allItems, current := 0, allItems := nav.allItems, searchMode := false,
      searchText := "" }

/-- The operations of the session manager that the calls stand for. -/
inductive CallKind where
  | sessionExists
  | createSession
  | countWindows
  | createWindow
  | renameWindow
  | sendInput
  | selectWindow
  | isInsideSession
  | attachSession
  | switchClient
  deriving DecidableEq, Repr

/-- The operation a command stands for. -/
def Cmd.kind : Cmd → CallKind
  | Cmd.echoTmux => CallKind.isInsideSession
  | Cmd.hasSession _ => CallKind.sessionExists
  | Cmd.listWindows _ => CallKind.countWindows
  | Cmd.newSession _ _ => CallKind.createSession
  | Cmd.sendKeys _ _ _ => CallKind.sendInput
  | Cmd.attachSession _ => CallKind.attachSession
  | Cmd.switchClient _ => CallKind.switchClient
  | Cmd.newWindow _ _ => CallKind.createWindow
  | Cmd.renameWindow _ _ _ => CallKind.renameWindow
  | Cmd.selectWindow _ _ => CallKind.selectWindow

/-- The calls that create or fill a session: everything but the existence check and the calls
of `ChangeSession`. -/
def Cmd.provisions : Cmd → Bool
  | Cmd.echoTmux => false
  | Cmd.hasSession _ => false
  | Cmd.attachSession _ => false
  | Cmd.switchClient _ => false
  | _ => true

/-- The calls whose error `OpenProject` treats as fatal: the `rename-window` call, whose error
is the result of `tmuxxer.CreateWindow`, the `send-keys` calls and the `select-window` call. -/
def Cmd.fatal : Cmd → Bool
  | Cmd.renameWindow _ _ _ => true
  | Cmd.sendKeys _ _ _ => true
  | Cmd.selectWindow _ _ => true
  | _ => false

/-- The calls made by `ChangeSession`. -/
def Cmd.changesSession : Cmd → Bool
  | Cmd.echoTmux => true
  | Cmd.attachSession _ => true
  | Cmd.switchClient _ => true
  | _ => false

/-- The window number that `CreateWindow` reads off the answer of `list-windows`: the parsed
count, or 0 when the command or the parsing fails. -/
def lastWindow (lib : StdLib) (o : Output) : Int :=
  if o.failed then 0
  else
    match lib.atoi (lib.trimSpace o.output) with
    | none => 0
    | some num => num

/-- The command that `ChangeSession` issues after the check of `$TMUX`: `switch-client` when
the output of the check is not exactly one byte long, `attach-session` otherwise. -/
def clientCmd (o : Output) (session_name : String) : Cmd :=
  if o.output.utf8ByteSize != 1 then Cmd.switchClient session_name
  else Cmd.attachSession session_name

/-- Whether every failed fatal call of a trace is its last call. -/
def stopsAtFatal : Trace → Bool
  | [] => true
  | e :: rest => (!(e.1.fatal && e.2.failed) || rest.isEmpty) && stopsAtFatal rest

/-- The order of operations after the existence check that C6 states, up to the select-window
call. -/
def claimedOrder : List CallKind :=
  [CallKind.createSession, CallKind.countWindows, CallKind.createWindow, CallKind.renameWindow,
   CallKind.sendInput, CallKind.sendInput, CallKind.sendInput, CallKind.sendInput,
   CallKind.selectWindow]

/-- A world in which no session exists (every `has-session` fails) and every other command
succeeds; `list-windows` counts two windows and `$TMUX` is empty. -/
def freshWorld : World := fun _ c =>
  match c with
  | Cmd.hasSession _ => { output := "", failed := true }
  | Cmd.listWindows _ => { output := "2\n", failed := false }
  | Cmd.echoTmux => { output := "\n", failed := false }
  | _ => { output := "", failed := false }

/-- A world in which the session exists already and the program runs inside tmux (`$TMUX` is
set); every command succeeds. -/
def attachedWorld : World := fun _ c =>
  match c with
  | Cmd.echoTmux => { output := "/tmp/tmux-1000/default,4242,0\n", failed := false }
  | _ => { output := "", failed := false }

/-- A world in which no session exists, tmux numbers windows from 1, and the `new-window`
command fails: the new session keeps its single window, so `list-windows` counts one window,
the `rename-window` on window 1 and the `send-keys` to window 1 succeed, and the `send-keys` to
window 2 fail. -/
def newWindowFails : World := fun _ c =>
  match c with
  | Cmd.hasSession _ => { output := "", failed := true }
  | Cmd.newWindow _ _ => { output := "", failed := true }
  | Cmd.listWindows _ => { output := "1\n", failed := false }
  | Cmd.sendKeys _ "2" _ => { output := "", failed := true }
  | Cmd.echoTmux => { output := "\n", failed := false }
  | _ => { output := "", failed := false }

/-- A world in which no session exists and both the create-session call and the first
`send-keys` call fail; every other command succeeds. -/
def sessionAndKeysFail : World := fun n c =>
  match c with
  | Cmd.newSession _ _ => { output := "", failed := true }
  | Cmd.sendKeys _ "1" _ => { output := "", failed := true }
  | _ => freshWorld n c

/-! ## Filtering (C1) -/

theorem containsChars_iff (s substr : List Char) :
    containsChars s substr = true ↔ substr <:+: s := by
  induction s with
  | nil =>
    cases substr <;> simp [containsChars]
  | cons c cs ih =>
    rw [containsChars, Bool.or_eq_true, ih, List.infix_cons_iff, List.isPrefixOf_iff_prefix]

theorem foldl_filterStep (lib : StdLib) (s : String) (l : List TableItem) (nav : NaviTable) :
    l.foldl (filterStep lib s) nav
      = { nav with items := nav.items ++ l.filter (itemMatches lib s) } := by
  induction l generalizing nav with
  | nil => simp
  | cons a l ih =>
    rw [List.foldl_cons, ih]
    by_cases h : itemMatches lib s a = true
    · simp [filterStep, h]
    · simp [filterStep, h]

/-- C1: after `filterItems(s)` the backup `allItems` is the old backup, or the old `items` when
the old backup was empty, and the visible items are exactly the entries of that backup whose
lower-cased label has the lower-cased `s` as a contiguous part, in the order of the backup; for
the empty `s` these are all the entries of the backup. -/
theorem filterItems_visible (lib : StdLib) (nav : NaviTable) (s : String) :
    (filterItems lib nav s).allItems = (if nav.allItems = [] then nav.items else nav.allItems) ∧
    (filterItems lib nav s).items
      = (filterItems lib nav s).allItems.filter
          (fun item => decide ((lib.toLower s).data <:+: (lib.toLower item.data).data)) ∧
    (s = "" → (filterItems lib nav s).items = (filterItems lib nav s).allItems) := by
  have hm : (fun item : TableItem =>
      decide ((lib.toLower s).data <:+: (lib.toLower item.data).data)) = itemMatches lib s := by
    funext item
    simp only [itemMatches, stringsContains]
    rw [Bool.eq_iff_iff]
    simp [containsChars_iff]
  rw [hm]
  by_cases hs : s = ""
  · subst hs
    have hall : ∀ l : List TableItem, l.filter (itemMatches lib "") = l := by
      intro l
      apply List.filter_eq_self.mpr
      intro a _
      simp [itemMatches, stringsContains, containsChars_iff, lib.toLower_empty]
    by_cases ha : nav.allItems = []
    · by_cases hi : nav.items = []
      · simp [filterItems, restoreAllItems, ha, hi]
      · simp [filterItems, restoreAllItems, ha, hi, hall]
    · simp [filterItems, restoreAllItems, ha, hall]
  · by_cases ha : nav.allItems = []
    · simp [filterItems, hs, ha, foldl_filterStep]
    · simp [filterItems, hs, ha, foldl_filterStep]

/-! ## The highlighted index (C3) -/

theorem foldl_AddItem (projects : List String) (nav : NaviTable) :
    projects.foldl (fun nav project => AddItem nav project (Click.openProject project)) nav
      = { nav with items := nav.items ++ projects.map projectItem } := by
  induction projects generalizing nav with
  | nil => simp
  | cons a l ih => rw [List.foldl_cons, ih]; simp [AddItem, projectItem]

theorem mainTable_eq (projects : List String) :
    mainTable projects
      = { items := projects.map projectItem ++ [exitItem], current := 0,
          allItems := projects.map projectItem, searchMode := false, searchText := "" } := by
  unfold mainTable
  rw [foldl_AddItem]
  simp [AddItem, CreateNavTable, exitItem]

theorem mainTable_inv (projects : List String) : Inv (mainTable projects) := by
  rw [mainTable_eq]
  refine ⟨le_refl _, ?_, ?_⟩
  · intro _; simp
  · intro _; simp

theorem restoreAllItems_inv (nav : NaviTable) (h : Inv nav) : Inv (restoreAllItems nav) := by
  obtain ⟨h0, h1, h2⟩ := h
  unfold restoreAllItems
  by_cases ha : nav.allItems = []
  · simp [ha]; exact ⟨h0, h1, h2⟩
  · have : 0 < nav.allItems.length := List.length_pos.mpr ha
    simp [ha, Inv]
    omega

theorem exitSearchMode_inv (nav : NaviTable) (h : Inv nav) : Inv (exitSearchMode nav) := by
  unfold exitSearchMode
  by_cases hs : nav.searchMode = true
  · simp only [hs, Bool.not_true, Bool.false_eq_true, if_false]
    exact restoreAllItems_inv _ h
  · simp [hs]; exact h

theorem searchChanged_current (lib : StdLib) (nav : NaviTable) (text : String) (h : Inv nav) :
    (searchChanged lib nav text).current = 0 := by
  obtain ⟨_, _, h2⟩ := h
  by_cases ha : nav.allItems = []
  · have hi := h2 ha
    by_cases ht : text = ""
    · simp [searchChanged, filterItems, restoreAllItems, ha, hi, ht]
    · simp [searchChanged, filterItems, ha, ht]
  · by_cases ht : text = ""
    · simp [searchChanged, filterItems, restoreAllItems, ha, ht]
    · simp [searchChanged, filterItems, ha, ht]

theorem searchChanged_inv (lib : StdLib) (nav : NaviTable) (text : String) (h : Inv nav) :
    Inv (searchChanged lib nav text) := by
  have hc := searchChanged_current lib nav text h
  have hv := (filterItems_visible lib { nav with searchText := text } text).1
  obtain ⟨_, _, h2⟩ := h
  refine ⟨by rw [hc], ?_, ?_⟩
  · intro hne
    rw [hc]
    exact Int.ofNat_lt.mpr (List.length_pos.mpr hne)
  · intro hall
    exfalso
    unfold searchChanged at hall
    rw [hv] at hall
    by_cases ha : nav.allItems = []
    · simp [ha] at hall
      exact h2 ha hall
    · simp [ha] at hall

theorem itemAt_isSome (items : List TableItem) (i : Int) (h0 : 0 ≤ i) (h1 : i < items.length) :
    ∃ item, itemAt items i = some item := by
  have hlt : i.toNat < items.length := by omega
  refine ⟨items[i.toNat], ?_⟩
  simp [itemAt, h0, List.getElem?_eq_getElem hlt]

theorem handleEvent_inv (lib : StdLib) (nav : NaviTable) (ev : Event) (h : Inv nav) :
    ∃ r, handleEvent lib nav ev = some r ∧ Inv r.nav := by
  cases ev with
  | changed text => exact ⟨_, rfl, searchChanged_inv lib nav text h⟩
  | key k =>
    have hx := exitSearchMode_inv nav h
    obtain ⟨h0, h1, h2⟩ := h
    by_cases hs : nav.searchMode = true
    · cases k with
      | enter =>
        by_cases hi : nav.items = []
        · simp [handleEvent, Move, searchInputCapture, searchDone, hs, hi]
          exact hx
        · have hlen : 0 < nav.items.length := List.length_pos.mpr hi
          have hlt := h1 hi
          obtain ⟨item, hitem⟩ := itemAt_isSome nav.items nav.current h0 hlt
          simp [handleEvent, Move, searchInputCapture, searchDone, hs, hlen, hlt, hitem]
          exact hx
      | esc =>
        simp [handleEvent, Move, hs]
        exact hx
      | down =>
        by_cases hc : 0 < nav.items.length ∧ nav.current + 1 < nav.items.length
        · simp [handleEvent, Move, searchInputCapture, hs, hc]
          refine ⟨by simp; omega, ?_, h2⟩
          intro _; simp; omega
        · simp [handleEvent, Move, searchInputCapture, hs, hc]
          exact ⟨h0, h1, h2⟩
      | up =>
        by_cases hc : 0 < nav.items.length ∧ 0 < nav.current
        · simp [handleEvent, Move, searchInputCapture, hs, hc]
          refine ⟨by simp; omega, ?_, h2⟩
          intro hne; have := h1 hne; simp; omega
        · simp [handleEvent, Move, searchInputCapture, hs, hc]
          exact ⟨h0, h1, h2⟩
      | rune r =>
        simp [handleEvent, Move, searchInputCapture, searchDone, hs]
        exact ⟨h0, h1, h2⟩
    · simp only [Bool.not_eq_true] at hs
      cases k with
      | enter =>
        by_cases hi : nav.items = []
        · simp [handleEvent, Move, hs, hi]
          exact ⟨h0, h1, h2⟩
        · have hlen : 0 < nav.items.length := List.length_pos.mpr hi
          have hlt := h1 hi
          obtain ⟨item, hitem⟩ := itemAt_isSome nav.items nav.current h0 hlt
          simp [handleEvent, Move, hs, hlen, hitem]
          exact ⟨h0, h1, h2⟩
      | esc =>
        simp [handleEvent, Move, hs]
        exact ⟨h0, h1, h2⟩
      | down =>
        simp only [handleEvent, Move, hs]
        simp
        split_ifs with hc
        · simp; exact ⟨h0, h1, h2⟩
        · simp; refine ⟨by simp; omega, ?_, h2⟩
          intro hne; have := h1 hne; simp; omega
      | up =>
        simp only [handleEvent, Move, hs]
        simp
        split_ifs with hc
        · simp; exact ⟨h0, h1, h2⟩
        · simp; refine ⟨by simp; omega, ?_, h2⟩
          intro hne; have := h1 hne; simp; omega
      | rune r =>
        simp only [handleEvent, Move, hs]
        simp
        split_ifs <;> simp [showSearchInput] <;>
          first
          | exact ⟨h0, h1, h2⟩
          | (refine ⟨by simp; omega, ?_, h2⟩
             intro hne; have := h1 hne; simp; omega)

theorem run_inv (lib : StdLib) (evs : List Event) (nav : NaviTable) (h : Inv nav) :
    ∃ nav2, run lib nav evs = some nav2 ∧ Inv nav2 := by
  induction evs generalizing nav with
  | nil => exact ⟨nav, rfl, h⟩
  | cons ev evs ih =>
    obtain ⟨r, hr, hinv⟩ := handleEvent_inv lib nav ev h
    obtain ⟨nav2, h2, hinv2⟩ := ih r.nav hinv
    exact ⟨nav2, by simp [run, step, hr, h2], hinv2⟩

theorem step_move (lib : StdLib) (nav : NaviTable) (k : Key)
    (hk : k = Key.up ∨ k = Key.down ∨ k = Key.rune 'j' ∨ k = Key.rune 'k') :
    ∃ nav2, step lib nav (Event.key k) = some nav2 ∧
      |nav2.current - nav.current| ≤ 1 ∧
      ((k = Key.up ∨ k = Key.rune 'k') → nav.current = 0 → nav2.current = nav.current) ∧
      ((k = Key.down ∨ k = Key.rune 'j') → nav.current + 1 = nav.items.length →
        nav2.current = nav.current) := by
  by_cases hs : nav.searchMode = true
  · rcases hk with rfl | rfl | rfl | rfl
    · by_cases hc : 0 < nav.items.length ∧ 0 < nav.current
      · simp [step, handleEvent, Move, searchInputCapture, hs, hc]
        intro h; omega
      · simp [step, handleEvent, Move, searchInputCapture, hs, hc]
    · by_cases hc : 0 < nav.items.length ∧ nav.current + 1 < nav.items.length
      · simp [step, handleEvent, Move, searchInputCapture, hs, hc]
        intro h; omega
      · simp [step, handleEvent, Move, searchInputCapture, hs, hc]
    · simp [step, handleEvent, Move, searchInputCapture, searchDone, hs]
    · simp [step, handleEvent, Move, searchInputCapture, searchDone, hs]
  · simp only [Bool.not_eq_true] at hs
    rcases hk with rfl | rfl | rfl | rfl
    · by_cases hc : nav.current = 0
      · simp [step, handleEvent, Move, hs, hc]
      · simp [step, handleEvent, Move, hs, hc]
    · by_cases hc : nav.current + 1 = nav.items.length
      · simp [step, handleEvent, Move, hs, hc]
      · simp [step, handleEvent, Move, hs, hc]
    · by_cases hc : nav.current + 1 = nav.items.length
      · simp [step, handleEvent, Move, hs, hc]
      · simp [step, handleEvent, Move, hs, hc]
    · by_cases hc : nav.current = 0
      · simp [step, handleEvent, Move, hs, hc]
      · simp [step, handleEvent, Move, hs, hc]

/-- C3: from the list state that `main` builds, every sequence of events (any key, in either
mode, and any report of a new filter text) runs without a panic and ends in a state where
`0 <= current < len(items)` whenever `items` is not empty; in that state each of Up, Down, `j`
and `k` changes `current` by at most one, Up and `k` leave it alone at index 0, Down and `j`
leave it alone at the last index, and a change of the filter text sets `current` to 0. -/
theorem current_stays_in_range (lib : StdLib) (projects : List String) (evs : List Event) :
    ∃ nav, run lib (mainTable projects) evs = some nav ∧
      (nav.items ≠ [] → 0 ≤ nav.current ∧ nav.current < nav.items.length) ∧
      (∀ k, (k = Key.up ∨ k = Key.down ∨ k = Key.rune 'j' ∨ k = Key.rune 'k') →
        ∃ nav2, step lib nav (Event.key k) = some nav2 ∧
          |nav2.current - nav.current| ≤ 1 ∧
          ((k = Key.up ∨ k = Key.rune 'k') → nav.current = 0 → nav2.current = nav.current) ∧
          ((k = Key.down ∨ k = Key.rune 'j') → nav.current + 1 = nav.items.length →
            nav2.current = nav.current)) ∧
      (∀ text, ∃ nav2, step lib nav (Event.changed text) = some nav2 ∧ nav2.current = 0) := by
  obtain ⟨nav, hrun, hinv⟩ := run_inv lib evs (mainTable projects) (mainTable_inv projects)
  refine ⟨nav, hrun, ?_, ?_, ?_⟩
  · intro hne
    exact ⟨hinv.1, hinv.2.1 hne⟩
  · intro k hk
    exact step_move lib nav k hk
  · intro text
    exact ⟨searchChanged lib nav text, rfl, searchChanged_current lib nav text hinv⟩

/-! ## Enter in search mode (C8) -/

theorem searchChanged_filterInv (lib : StdLib) (nav : NaviTable) (text : String)
    (hs : nav.searchMode = true) : FilterInv (searchChanged lib nav text) := by
  have hv := filterItems_visible lib { nav with searchText := text } text
  have hmode : (searchChanged lib nav text).searchMode = true := by
    by_cases ha : nav.allItems = [] <;> by_cases ht : text = "" <;>
      by_cases hi : nav.items = [] <;>
      simp [searchChanged, filterItems, restoreAllItems, foldl_filterStep, ha, ht, hi, hs]
  refine ⟨hmode, ?_⟩
  intro hne
  have hall : (searchChanged lib nav text).allItems ≠ [] := by
    intro hall
    apply hne
    unfold searchChanged at hall ⊢
    rw [hv.2.1, hall]
    rfl
  have hcur : (searchChanged lib nav text).current = 0 := by
    by_cases ha : nav.allItems = []
    · by_cases hi : nav.items = []
      · exfalso
        apply hall
        unfold searchChanged
        rw [hv.1]
        simp [ha, hi]
      · by_cases ht : text = ""
        · simp [searchChanged, filterItems, restoreAllItems, ha, hi, ht]
        · simp [searchChanged, filterItems, ha, ht]
    · by_cases ht : text = ""
      · simp [searchChanged, filterItems, restoreAllItems, ha, ht]
      · simp [searchChanged, filterItems, ha, ht]
  refine ⟨hall, by rw [hcur], ?_⟩
  rw [hcur]
  exact Int.ofNat_lt.mpr (List.length_pos.mpr hne)

theorem exitSearchMode_eq_unwound (nav : NaviTable) (hs : nav.searchMode = true) :
    exitSearchMode nav = unwound nav := by
  by_cases ha : nav.allItems = []
  · simp [exitSearchMode, restoreAllItems, unwound, hs, ha]
  · simp [exitSearchMode, restoreAllItems, unwound, hs, ha]

theorem searchEnter_eq (lib : StdLib) (nav : NaviTable) (hs : nav.searchMode = true) :
    (nav.items ≠ [] → 0 ≤ nav.current → nav.current < nav.items.length →
      ∃ item, itemAt nav.items nav.current = some item ∧
        handleEvent lib nav (Event.key Key.enter)
          = some { nav := unwound nav, consumed := true,
                   effect := some (Effect.click item.click) }) ∧
    (nav.items = [] →
      handleEvent lib nav (Event.key Key.enter)
        = some { nav := unwound nav, consumed := true, effect := none }) := by
  have hx := exitSearchMode_eq_unwound nav hs
  constructor
  · intro hi h0 h1
    obtain ⟨item, hitem⟩ := itemAt_isSome nav.items nav.current h0 h1
    have hlen : 0 < nav.items.length := List.length_pos.mpr hi
    exact ⟨item, hitem, by
      simp [handleEvent, Move, searchInputCapture, searchDone, hs, hlen, h1, hitem, hx]⟩
  · intro hi
    simp [handleEvent, Move, searchInputCapture, searchDone, hs, hi, hx]

/-- C8, as stated, fails: in `emptyRootSearch`, the state that `main` reaches for a root
without project directories when `/` is pressed, the visible items are not empty, and Enter
calls the click function of "Exit" in a state where `items` is still the "Exit" entry and
`allItems` is empty, so `items` does not equal `allItems` when the action runs. -/
theorem enter_without_backup :
    run asciiLib (mainTable []) [Event.key (Key.rune '/')] = some emptyRootSearch ∧
    emptyRootSearch.searchMode = true ∧ emptyRootSearch.items ≠ [] ∧
    handleEvent asciiLib emptyRootSearch (Event.key Key.enter)
      = some { nav := { items := [exitItem], current := 0, allItems := [], searchMode := false,
                        searchText := "" },
               consumed := true, effect := some (Effect.click Click.exit) } ∧
    [exitItem] ≠ ([] : List TableItem) := by
  decide

/-- C8, amended: in every list state in search mode whose visible items are not empty and
whose `current` is a valid index, Enter calls exactly the click function of `items[current]`,
and the list state at that call has `searchMode` false and `searchText` empty; if the backup
`allItems` is not empty, `items` equals `allItems` and `current` is 0 in that state, and if the
backup is empty, `items` and `current` are as they were before Enter. When the visible items
are empty, Enter calls no click function and leaves the same unwound state, in Browse mode. -/
theorem enter_in_search_mode (lib : StdLib) (nav : NaviTable) (hs : nav.searchMode = true) :
    (nav.items ≠ [] → 0 ≤ nav.current → nav.current < nav.items.length →
      ∃ item, itemAt nav.items nav.current = some item ∧
        handleEvent lib nav (Event.key Key.enter)
          = some { nav := unwound nav, consumed := true,
                   effect := some (Effect.click item.click) } ∧
        (unwound nav).searchMode = false ∧ (unwound nav).searchText = "" ∧
        (nav.allItems ≠ [] →
          (unwound nav).items = nav.allItems ∧ (unwound nav).allItems = nav.allItems ∧
            (unwound nav).current = 0) ∧
        (nav.allItems = [] →
          (unwound nav).items = nav.items ∧ (unwound nav).current = nav.current)) ∧
    (nav.items = [] →
      handleEvent lib nav (Event.key Key.enter)
        = some { nav := unwound nav, consumed := true, effect := none } ∧
      (unwound nav).searchMode = false ∧ (unwound nav).searchText = "") := by
  have hm : (unwound nav).searchMode = false ∧ (unwound nav).searchText = "" := by
    by_cases ha : nav.allItems = [] <;> simp [unwound, ha]
  obtain ⟨h1, h2⟩ := searchEnter_eq lib nav hs
  constructor
  · intro hi h0 hlt
    obtain ⟨item, hitem, hev⟩ := h1 hi h0 hlt
    refine ⟨item, hitem, hev, hm.1, hm.2, ?_, ?_⟩
    · intro ha
      simp [unwound, ha]
    · intro ha
      simp [unwound, ha]
  · intro hi
    exact ⟨h2 hi, hm.1, hm.2⟩

theorem enter_in_search_mode_witness :
    run asciiLib (mainTable ["alpha", "beta"])
        [Event.key (Key.rune '/'), Event.key Key.down, Event.key Key.down]
      = some exitHighlighted ∧
    exitHighlighted.searchMode = true ∧
    ∃ item, itemAt exitHighlighted.items exitHighlighted.current = some item ∧
      handleEvent asciiLib exitHighlighted (Event.key Key.enter)
        = some { nav := unwound exitHighlighted, consumed := true,
                 effect := some (Effect.click item.click) } ∧
      (unwound exitHighlighted).searchMode = false ∧
      (unwound exitHighlighted).searchText = "" ∧
      (exitHighlighted.allItems ≠ [] →
        (unwound exitHighlighted).items = exitHighlighted.allItems ∧
          (unwound exitHighlighted).allItems = exitHighlighted.allItems ∧
          (unwound exitHighlighted).current = 0) ∧
      (exitHighlighted.allItems = [] →
        (unwound exitHighlighted).items = exitHighlighted.items ∧
          (unwound exitHighlighted).current = exitHighlighted.current) :=
  ⟨by decide, by decide,
    (enter_in_search_mode asciiLib exitHighlighted (by decide)).1 (by decide) (by decide)
      (by decide)⟩

/-- From the list of `main`, whatever events came before: when the list is in search mode,
Enter does not panic; with visible items it calls the click function of `items[current]` in
the unwound state, and without visible items it calls no click function. -/
theorem enter_after_any_events (lib : StdLib) (projects : List String) (evs : List Event) :
    ∃ nav, run lib (mainTable projects) evs = some nav ∧
      (nav.searchMode = true →
        (nav.items ≠ [] →
          ∃ item, itemAt nav.items nav.current = some item ∧
            handleEvent lib nav (Event.key Key.enter)
              = some { nav := unwound nav, consumed := true,
                       effect := some (Effect.click item.click) }) ∧
        (nav.items = [] →
          handleEvent lib nav (Event.key Key.enter)
            = some { nav := unwound nav, consumed := true, effect := none })) := by
  obtain ⟨nav, hrun, hinv⟩ := run_inv lib evs (mainTable projects) (mainTable_inv projects)
  refine ⟨nav, hrun, ?_⟩
  intro hs
  obtain ⟨h1, h2⟩ := searchEnter_eq lib nav hs
  exact ⟨fun hi => h1 hi hinv.1 (hinv.2.1 hi), h2⟩

/-! ## Esc in search mode (C2) -/

theorem searchChanged_searchBackup (lib : StdLib) (projects : List String) (nav : NaviTable)
    (text : String) (h : SearchBackup projects nav) :
    SearchBackup projects (searchChanged lib nav text) := by
  obtain ⟨hs, hb⟩ := h
  have hv := (filterItems_visible lib { nav with searchText := text } text).1
  have hmode := (searchChanged_filterInv lib nav text hs).1
  refine ⟨hmode, ?_⟩
  unfold searchChanged
  rw [hv]
  rcases hb with ⟨hp, ha⟩ | ⟨hp, ⟨ha, hi⟩ | ha⟩
  · left
    have hne : projects.map projectItem ≠ [] := by simpa using hp
    exact ⟨hp, by simp [ha, hne]⟩
  · right
    exact ⟨hp, Or.inr (by simp [ha, hi])⟩
  · right
    exact ⟨hp, Or.inr (by simp [ha])⟩

/-- From the list of `main`, after `/`, any number of reported filter texts and Esc, the visible
items are the project entries alone when there are projects, and the "Exit" entry alone when
there are none. -/
theorem escape_restores_backup (lib : StdLib) (projects texts : List String) :
    ∃ nav, run lib (mainTable projects)
        (Event.key (Key.rune '/') :: (texts.map Event.changed ++ [Event.key Key.esc]))
          = some nav ∧
      nav.items = (if projects = [] then [exitItem] else projects.map projectItem) := by
  have haux : ∀ (ts : List String) (nav : NaviTable), SearchBackup projects nav →
      ∃ nav2, run lib nav (ts.map Event.changed ++ [Event.key Key.esc]) = some nav2 ∧
        nav2.items = (if projects = [] then [exitItem] else projects.map projectItem) := by
    intro ts
    induction ts with
    | nil =>
      intro nav h
      obtain ⟨hs, hb⟩ := h
      refine ⟨exitSearchMode nav, by simp [run, step, handleEvent, Move, hs], ?_⟩
      rcases hb with ⟨hp, ha⟩ | ⟨hp, ⟨ha, hi⟩ | ha⟩
      · have hne : projects.map projectItem ≠ [] := by simpa using hp
        have hne2 : nav.allItems ≠ [] := by rw [ha]; exact hne
        simp [exitSearchMode, restoreAllItems, hs, hp, hne2, ha]
      · simp [exitSearchMode, restoreAllItems, hs, hp, ha, hi]
      · simp [exitSearchMode, restoreAllItems, hs, hp, ha]
    | cons t ts ih =>
      intro nav h
      obtain ⟨nav2, h2, hi2⟩ := ih _ (searchChanged_searchBackup lib projects nav t h)
      exact ⟨nav2, by simpa [run, step, handleEvent] using h2, hi2⟩
  have hstart : SearchBackup projects (showSearchInput (mainTable projects)) := by
    rw [mainTable_eq]
    refine ⟨rfl, ?_⟩
    by_cases hp : projects = []
    · right
      subst hp
      exact ⟨rfl, Or.inl ⟨rfl, rfl⟩⟩
    · left
      exact ⟨hp, rfl⟩
  obtain ⟨nav, h1, h2⟩ := haux texts _ hstart
  refine ⟨nav, ?_, h2⟩
  have hm : (mainTable projects).searchMode = false := by rw [mainTable_eq]
  simpa [run, step, handleEvent, Move, hm] using h1

/-- C2: with the projects `alpha` and `beta`, the list shows `alpha`, `beta`, `Exit` before `/`
is pressed; after `/`, the filter text `b` and Esc it shows `alpha`, `beta` only, and the same
happens when no filter text is typed at all: the "Exit" entry, added after the backup was taken
in `main`, is not restored. -/
theorem escape_drops_exit_entry :
    (mainTable ["alpha", "beta"]).items.map (fun item => item.data) = ["alpha", "beta", "Exit"] ∧
    (run asciiLib (mainTable ["alpha", "beta"])
        [Event.key (Key.rune '/'), Event.changed "b", Event.key Key.esc]).map
      (fun nav => nav.items.map (fun item => item.data)) = some ["alpha", "beta"] ∧
    (run asciiLib (mainTable ["alpha", "beta"])
        [Event.key (Key.rune '/'), Event.key Key.esc]).map
      (fun nav => nav.items.map (fun item => item.data)) = some ["alpha", "beta"] := by
  decide

/-! ## Keys on an empty list (C10) -/

theorem GetWindowsAmount_eq (lib : StdLib) (w : World) (tr : Trace) (s : String) :
    GetWindowsAmount lib w tr s
      = (((lastWindow lib (w tr.length (Cmd.listWindows s))),
          (GetWindowsAmount lib w tr s).1.2),
         tr ++ [(Cmd.listWindows s, w tr.length (Cmd.listWindows s))]) := by
  unfold GetWindowsAmount lastWindow exec
  by_cases h : (w tr.length (Cmd.listWindows s)).failed = true
  · simp [h]
  · simp only [h]
    cases lib.atoi (lib.trimSpace (w tr.length (Cmd.listWindows s)).output) <;> simp

theorem CreateWindow_eq (lib : StdLib) (w : World) (tr : Trace) (s n : String) :
    CreateWindow lib w tr s n
      = ((w (tr.length + 2)
            (Cmd.renameWindow s (lastWindow lib (w (tr.length + 1) (Cmd.listWindows s))) n)).failed,
         tr ++ [(Cmd.newWindow s n, w tr.length (Cmd.newWindow s n)),
                (Cmd.listWindows s, w (tr.length + 1) (Cmd.listWindows s)),
                (Cmd.renameWindow s (lastWindow lib (w (tr.length + 1) (Cmd.listWindows s))) n,
                  w (tr.length + 2)
                    (Cmd.renameWindow s (lastWindow lib (w (tr.length + 1) (Cmd.listWindows s)))
                      n))]) := by
  unfold CreateWindow
  simp only [exec]
  rw [GetWindowsAmount_eq]
  simp

theorem ChangeSession_eq (w : World) (tr : Trace) (s : String) :
    ChangeSession w tr s
      = if (w tr.length Cmd.echoTmux).failed = true then
          (true, tr ++ [(Cmd.echoTmux, w tr.length Cmd.echoTmux)])
        else
          ((w (tr.length + 1) (clientCmd (w tr.length Cmd.echoTmux) s)).failed,
            tr ++ [(Cmd.echoTmux, w tr.length Cmd.echoTmux),
                   (clientCmd (w tr.length Cmd.echoTmux) s,
                     w (tr.length + 1) (clientCmd (w tr.length Cmd.echoTmux) s))]) := by
  unfold ChangeSession IsTmuxSession clientCmd
  simp only [exec]
  by_cases h : (w tr.length Cmd.echoTmux).failed = true
  · simp [h]
  · simp [h]

theorem clientCmd_kind (o : Output) (s : String) :
    clientCmd o s = Cmd.switchClient s ∨ clientCmd o s = Cmd.attachSession s := by
  unfold clientCmd
  split_ifs
  · exact Or.inl rfl
  · exact Or.inr rfl

theorem clientCmd_fatal (o : Output) (s : String) : (clientCmd o s).fatal = false := by
  rcases clientCmd_kind o s with hc | hc <;> rw [hc] <;> rfl

theorem clientCmd_ne_sendKeys (o : Output) (s a b c : String) :
    Cmd.sendKeys a b c ≠ clientCmd o s := by
  rcases clientCmd_kind o s with hc | hc <;> rw [hc] <;> simp

theorem clientCmd_changesSession (o : Output) (s : String) :
    (clientCmd o s).changesSession = true := by
  rcases clientCmd_kind o s with hc | hc <;> rw [hc] <;> rfl

theorem stopsAtFatal_sound (tr : Trace) (h : stopsAtFatal tr = true) (pre : Trace)
    (e : Cmd × Output) (post : Trace) (htr : tr = pre ++ e :: post)
    (hf : e.1.fatal = true) (he : e.2.failed = true) : post = [] := by
  induction pre generalizing tr with
  | nil =>
    subst htr
    simp [stopsAtFatal, hf, he] at h
    exact h.1
  | cons a pre ih =>
    subst htr
    simp only [List.cons_append, stopsAtFatal, Bool.and_eq_true] at h
    exact ih _ h.2 rfl

/-- The trace of `OpenProject` when no session of that name exists and every later call
succeeds. -/
theorem OpenProject_all_succeed (lib : StdLib) (root : String) (w : World) (name : String)
    (hno : (w 0 (Cmd.hasSession name)).failed = true)
    (hok : ∀ e ∈ (OpenProject lib root w [] name).tail, e.2.failed = false) :
    (OpenProject lib root w [] name).map (fun e => e.1)
      = [Cmd.hasSession name, Cmd.newSession name true, Cmd.newWindow name "terminal",
         Cmd.listWindows name,
         Cmd.renameWindow name (lastWindow lib (w 3 (Cmd.listWindows name))) "terminal",
         Cmd.sendKeys name "1" ("cd " ++ root ++ "/" ++ name),
         Cmd.sendKeys name "1" "vim .",
         Cmd.sendKeys name "2" ("cd " ++ root ++ "/" ++ name),
         Cmd.sendKeys name "2" "clear",
         Cmd.selectWindow name "1",
         Cmd.echoTmux,
         clientCmd (w 10 Cmd.echoTmux) name] := by
  simp only [OpenProject, HasSession, CreateSession, CreateWindow_eq, SendKeys,
    SelectWindow, ChangeSession_eq, exec, List.length_nil, hno, List.nil_append,
    if_true, Bool.false_eq_true, if_false, List.length_cons, List.length_append, List.cons_append,
    List.length_singleton, Nat.zero_add, Nat.reduceAdd] at hok ⊢
  split_ifs at hok ⊢ <;> simp_all [String.append_assoc]

theorem OpenProject_stopsAtFatal (lib : StdLib) (root : String) (w : World) (name : String)
    (hno : (w 0 (Cmd.hasSession name)).failed = true) :
    stopsAtFatal (OpenProject lib root w [] name) = true := by
  generalize htr : OpenProject lib root w [] name = tr
  simp only [OpenProject, HasSession, CreateSession, CreateWindow_eq, SendKeys,
    SelectWindow, ChangeSession_eq, exec, List.length_nil, hno, List.nil_append,
    if_true, Bool.false_eq_true, if_false, List.length_cons, List.length_append,
    List.cons_append, List.length_singleton, Nat.zero_add, Nat.reduceAdd] at htr
  have hcf := clientCmd_fatal (w 10 Cmd.echoTmux) name
  split_ifs at htr <;> subst htr <;>
    simp [stopsAtFatal, Cmd.fatal, *]

theorem OpenProject_changes_only_after_success (lib : StdLib) (root : String) (w : World)
    (name : String) (hno : (w 0 (Cmd.hasSession name)).failed = true) :
    (∃ e ∈ OpenProject lib root w [] name, e.1.changesSession = true) →
      (∀ e ∈ OpenProject lib root w [] name, e.1.fatal = true → e.2.failed = false) ∧
      ((OpenProject lib root w [] name).filter (fun e => e.1.fatal)).length = 6 := by
  generalize htr : OpenProject lib root w [] name = tr
  simp only [OpenProject, HasSession, CreateSession, CreateWindow_eq, SendKeys,
    SelectWindow, ChangeSession_eq, exec, List.length_nil, hno, List.nil_append,
    if_true, Bool.false_eq_true, if_false, List.length_cons, List.length_append,
    List.cons_append, List.length_singleton, Nat.zero_add, Nat.reduceAdd] at htr
  split_ifs at htr <;> subst htr <;>
    first
    | (simp [Cmd.fatal, Cmd.changesSession, List.filter_cons, *]; done)
    | (rcases clientCmd_kind (w 10 Cmd.echoTmux) name with hc | hc <;>
        simp [Cmd.fatal, Cmd.changesSession, List.filter_cons, hc, *])

theorem OpenProject_window_two_after_one (lib : StdLib) (root : String) (w : World)
    (name : String) (hno : (w 0 (Cmd.hasSession name)).failed = true) :
    ∀ c o, (Cmd.sendKeys name "1" c, o) ∈ OpenProject lib root w [] name → o.failed = true →
      ∀ c2 o2, (Cmd.sendKeys name "2" c2, o2) ∉ OpenProject lib root w [] name := by
  generalize htr : OpenProject lib root w [] name = tr
  simp only [OpenProject, HasSession, CreateSession, CreateWindow_eq, SendKeys,
    SelectWindow, ChangeSession_eq, exec, List.length_nil, hno, List.nil_append,
    if_true, Bool.false_eq_true, if_false, List.length_cons, List.length_append,
    List.cons_append, List.length_singleton, Nat.zero_add, Nat.reduceAdd] at htr
  have hcs := clientCmd_ne_sendKeys (w 10 Cmd.echoTmux) name
  intro c o hmem hfail c2 o2 hmem2
  split_ifs at htr <;> subst htr <;> simp [hcs] at hmem hmem2 <;>
    rcases hmem with ⟨-, rfl⟩ | ⟨-, rfl⟩ <;> contradiction

theorem OpenProject_first_calls (lib : StdLib) (root : String) (w : World)
    (name : String) (hno : (w 0 (Cmd.hasSession name)).failed = true) :
    ((OpenProject lib root w [] name).take 3).map (fun e => e.1)
      = [Cmd.hasSession name, Cmd.newSession name true, Cmd.newWindow name "terminal"] := by
  generalize htr : OpenProject lib root w [] name = tr
  simp only [OpenProject, HasSession, CreateSession, CreateWindow_eq, SendKeys,
    SelectWindow, ChangeSession_eq, exec, List.length_nil, hno, List.nil_append,
    if_true, Bool.false_eq_true, if_false, List.length_cons, List.length_append,
    List.cons_append, List.length_singleton, Nat.zero_add, Nat.reduceAdd] at htr
  split_ifs at htr <;> subst htr <;> rfl

/-! ## The provisioning workflow (C4, C5, C6, C7, C9) -/

/-- C4: when the existence check succeeds, `OpenProject` is the existence check followed by one
run of `ChangeSession` on that name: the calls are `has-session`, the check of `$TMUX` and,
unless that check fails, one `attach-session` or `switch-client` on the name; none of the calls
creates a session or a window, counts or renames windows, sends keys or selects a window,
whatever the answers of the calls of `ChangeSession` are. -/
theorem existing_session_only_changes (lib : StdLib) (root : String) (w : World)
    (name : String) (h : (w 0 (Cmd.hasSession name)).failed = false) :
    OpenProject lib root w [] name
      = (ChangeSession w [(Cmd.hasSession name, w 0 (Cmd.hasSession name))] name).2 ∧
    (OpenProject lib root w [] name).map (fun e => e.1)
      = Cmd.hasSession name :: Cmd.echoTmux ::
          (if (w 1 Cmd.echoTmux).failed = true then []
           else [if (w 1 Cmd.echoTmux).output.utf8ByteSize != 1 then Cmd.switchClient name
                 else Cmd.attachSession name]) ∧
    ∀ e ∈ OpenProject lib root w [] name, e.1.provisions = false := by
  refine ⟨?_, ?_, ?_⟩
  · simp [OpenProject, HasSession, exec, h]
  · simp only [OpenProject, HasSession, ChangeSession_eq, exec, List.length_nil, h,
      List.nil_append, if_true, Bool.false_eq_true, if_false, List.length_cons,
      List.length_singleton, List.cons_append, Nat.zero_add, Nat.reduceAdd, clientCmd]
    split_ifs <;> simp_all
  · intro e he
    simp only [OpenProject, HasSession, ChangeSession_eq, exec, List.length_nil, h,
      List.nil_append, if_true, Bool.false_eq_true, if_false, List.length_cons,
      List.length_singleton, List.cons_append, Nat.zero_add, Nat.reduceAdd] at he
    rcases clientCmd_kind (w 1 Cmd.echoTmux) name with hc | hc <;>
      split_ifs at he <;> simp [hc] at he <;>
      rcases he with rfl | rfl | rfl <;> rfl

theorem existing_session_only_changes_witness :
    (attachedWorld 0 (Cmd.hasSession "demo")).failed = false ∧
    (OpenProject asciiLib "/home/u/git" attachedWorld [] "demo").map (fun e => e.1)
      = [Cmd.hasSession "demo", Cmd.echoTmux, Cmd.switchClient "demo"] ∧
    ∀ e ∈ OpenProject asciiLib "/home/u/git" attachedWorld [] "demo", e.1.provisions = false :=
  ⟨by decide, by decide,
    (existing_session_only_changes asciiLib "/home/u/git" attachedWorld "demo" (by decide)).2.2⟩

/-- C5: in the world `newWindowFails`, where the session does not exist and the `new-window`
command fails, `OpenProject` still sends keys three times: the error of `new-window` is
dropped by `CreateWindow`, and the workflow only stops at the failing `send-keys` to window
2. -/
theorem keys_sent_after_failed_new_window :
    OpenProject asciiLib "/home/u/git" newWindowFails [] "demo"
      = [(Cmd.hasSession "demo", { output := "", failed := true }),
         (Cmd.newSession "demo" true, { output := "", failed := false }),
         (Cmd.newWindow "demo" "terminal", { output := "", failed := true }),
         (Cmd.listWindows "demo", { output := "1\n", failed := false }),
         (Cmd.renameWindow "demo" 1 "terminal", { output := "", failed := false }),
         (Cmd.sendKeys "demo" "1" "cd /home/u/git/demo", { output := "", failed := false }),
         (Cmd.sendKeys "demo" "1" "vim .", { output := "", failed := false }),
         (Cmd.sendKeys "demo" "2" "cd /home/u/git/demo", { output := "", failed := true })] := by
  decide

/-- C6, as stated, fails: for the session `demo` in `freshWorld`, where no session exists and
every later call succeeds, the operations after the existence check are create-session,
new-window, window count, rename-window, four send-keys, select-window, the check of `$TMUX`
and attach-session; the window count comes after the new-window call, so the stated order is
not a prefix of them. -/
theorem window_count_follows_new_window :
    (freshWorld 0 (Cmd.hasSession "demo")).failed = true ∧
    (∀ e ∈ (OpenProject asciiLib "/home/u/git" freshWorld [] "demo").tail,
      e.2.failed = false) ∧
    (OpenProject asciiLib "/home/u/git" freshWorld [] "demo").tail.map (fun e => e.1.kind)
      = [CallKind.createSession, CallKind.createWindow, CallKind.countWindows,
         CallKind.renameWindow, CallKind.sendInput, CallKind.sendInput, CallKind.sendInput,
         CallKind.sendInput, CallKind.selectWindow, CallKind.isInsideSession,
         CallKind.attachSession] ∧
    ¬ (claimedOrder <+:
        (OpenProject asciiLib "/home/u/git" freshWorld [] "demo").tail.map
          (fun e => e.1.kind)) := by
  decide

/-- C6, amended: when no session of that name exists and every later call succeeds, the calls
of `OpenProject` are, in this order: the existence check, create-session (detached),
new-window, the window count, rename-window (of the window with the counted number), the four
send-keys, select-window, the check of `$TMUX`, and attach-session or switch-client. -/
theorem new_session_call_order (lib : StdLib) (root : String) (w : World) (name : String)
    (hno : (w 0 (Cmd.hasSession name)).failed = true)
    (hok : ∀ e ∈ (OpenProject lib root w [] name).tail, e.2.failed = false) :
    (OpenProject lib root w [] name).map (fun e => e.1)
      = [Cmd.hasSession name, Cmd.newSession name true, Cmd.newWindow name "terminal",
         Cmd.listWindows name,
         Cmd.renameWindow name (lastWindow lib (w 3 (Cmd.listWindows name))) "terminal",
         Cmd.sendKeys name "1" ("cd " ++ root ++ "/" ++ name),
         Cmd.sendKeys name "1" "vim .",
         Cmd.sendKeys name "2" ("cd " ++ root ++ "/" ++ name),
         Cmd.sendKeys name "2" "clear",
         Cmd.selectWindow name "1",
         Cmd.echoTmux,
         (if (w 10 Cmd.echoTmux).output.utf8ByteSize != 1 then Cmd.switchClient name
          else Cmd.attachSession name)] :=
  OpenProject_all_succeed lib root w name hno hok

theorem new_session_call_order_witness :
    (freshWorld 0 (Cmd.hasSession "demo")).failed = true ∧
    (∀ e ∈ (OpenProject asciiLib "/home/u/git" freshWorld [] "demo").tail,
      e.2.failed = false) ∧
    (OpenProject asciiLib "/home/u/git" freshWorld [] "demo").map (fun e => e.1)
      = [Cmd.hasSession "demo", Cmd.newSession "demo" true, Cmd.newWindow "demo" "terminal",
         Cmd.listWindows "demo",
         Cmd.renameWindow "demo" (lastWindow asciiLib (freshWorld 3 (Cmd.listWindows "demo")))
           "terminal",
         Cmd.sendKeys "demo" "1" ("cd " ++ "/home/u/git" ++ "/" ++ "demo"),
         Cmd.sendKeys "demo" "1" "vim .",
         Cmd.sendKeys "demo" "2" ("cd " ++ "/home/u/git" ++ "/" ++ "demo"),
         Cmd.sendKeys "demo" "2" "clear",
         Cmd.selectWindow "demo" "1",
         Cmd.echoTmux,
         (if (freshWorld 10 Cmd.echoTmux).output.utf8ByteSize != 1 then Cmd.switchClient "demo"
          else Cmd.attachSession "demo")] :=
  ⟨by decide, by decide,
    new_session_call_order asciiLib "/home/u/git" freshWorld "demo" (by decide) (by decide)⟩

/-- C7: when no session of that name exists and every later call succeeds, the send-keys and
select-window calls of `OpenProject` are exactly these five, in this order: `cd root/name` to
window 1, `vim .` to window 1, `cd root/name` to window 2, `clear` to window 2, all in the
session `name`, and then the selection of window 1 of that session. -/
theorem send_keys_then_select (lib : StdLib) (root : String) (w : World) (name : String)
    (hno : (w 0 (Cmd.hasSession name)).failed = true)
    (hok : ∀ e ∈ (OpenProject lib root w [] name).tail, e.2.failed = false) :
    ((OpenProject lib root w [] name).map (fun e => e.1)).filter
        (fun c => c.kind == CallKind.sendInput || c.kind == CallKind.selectWindow)
      = [Cmd.sendKeys name "1" ("cd " ++ root ++ "/" ++ name),
         Cmd.sendKeys name "1" "vim .",
         Cmd.sendKeys name "2" ("cd " ++ root ++ "/" ++ name),
         Cmd.sendKeys name "2" "clear",
         Cmd.selectWindow name "1"] := by
  rw [OpenProject_all_succeed lib root w name hno hok]
  rcases clientCmd_kind (w 10 Cmd.echoTmux) name with hc | hc <;>
    (rw [hc]; rfl)

theorem send_keys_then_select_witness :
    (freshWorld 0 (Cmd.hasSession "demo")).failed = true ∧
    (∀ e ∈ (OpenProject asciiLib "/home/u/git" freshWorld [] "demo").tail,
      e.2.failed = false) ∧
    ((OpenProject asciiLib "/home/u/git" freshWorld [] "demo").map (fun e => e.1)).filter
        (fun c => c.kind == CallKind.sendInput || c.kind == CallKind.selectWindow)
      = [Cmd.sendKeys "demo" "1" ("cd " ++ "/home/u/git" ++ "/" ++ "demo"),
         Cmd.sendKeys "demo" "1" "vim .",
         Cmd.sendKeys "demo" "2" ("cd " ++ "/home/u/git" ++ "/" ++ "demo"),
         Cmd.sendKeys "demo" "2" "clear",
         Cmd.selectWindow "demo" "1"] :=
  ⟨by decide, by decide,
    send_keys_then_select asciiLib "/home/u/git" freshWorld "demo" (by decide) (by decide)⟩

/-- C9: when no session of that name exists, whatever the answers of the calls are: a failed
`rename-window` (the error of `tmuxxer.CreateWindow`), `send-keys` or `select-window` call is
the last call of `OpenProject`; a call of `ChangeSession` is made only if all six of these calls
were made and none failed; after a failed `send-keys` to window 1 there is no `send-keys` to
window 2; and the first three calls are the existence check, create-session and new-window,
whether create-session failed or not. -/
theorem fatal_failure_stops_workflow (lib : StdLib) (root : String) (w : World)
    (name : String) (hno : (w 0 (Cmd.hasSession name)).failed = true) :
    (∀ pre e post, OpenProject lib root w [] name = pre ++ e :: post →
      e.1.fatal = true → e.2.failed = true → post = []) ∧
    ((∃ e ∈ OpenProject lib root w [] name, e.1.changesSession = true) →
      (∀ e ∈ OpenProject lib root w [] name, e.1.fatal = true → e.2.failed = false) ∧
      ((OpenProject lib root w [] name).filter (fun e => e.1.fatal)).length = 6) ∧
    (∀ c o, (Cmd.sendKeys name "1" c, o) ∈ OpenProject lib root w [] name → o.failed = true →
      ∀ c2 o2, (Cmd.sendKeys name "2" c2, o2) ∉ OpenProject lib root w [] name) ∧
    ((OpenProject lib root w [] name).take 3).map (fun e => e.1)
      = [Cmd.hasSession name, Cmd.newSession name true, Cmd.newWindow name "terminal"] :=
  ⟨fun pre e post htr hf he =>
      stopsAtFatal_sound _ (OpenProject_stopsAtFatal lib root w name hno) pre e post htr hf he,
    OpenProject_changes_only_after_success lib root w name hno,
    OpenProject_window_two_after_one lib root w name hno,
    OpenProject_first_calls lib root w name hno⟩

theorem fatal_failure_stops_workflow_witness :
    (sessionAndKeysFail 0 (Cmd.hasSession "demo")).failed = true ∧
    (OpenProject asciiLib "/home/u/git" sessionAndKeysFail [] "demo").map (fun e => e.1)
      = [Cmd.hasSession "demo", Cmd.newSession "demo" true, Cmd.newWindow "demo" "terminal",
         Cmd.listWindows "demo", Cmd.renameWindow "demo" 2 "terminal",
         Cmd.sendKeys "demo" "1" "cd /home/u/git/demo"] ∧
    ∀ c o, (Cmd.sendKeys "demo" "1" c, o)
        ∈ OpenProject asciiLib "/home/u/git" sessionAndKeysFail [] "demo" →
      o.failed = true →
      ∀ c2 o2, (Cmd.sendKeys "demo" "2" c2, o2)
        ∉ OpenProject asciiLib "/home/u/git" sessionAndKeysFail [] "demo" :=
  ⟨by decide, by decide,
    (fatal_failure_stops_workflow asciiLib "/home/u/git" sessionAndKeysFail "demo"
      (by decide)).2.2.1⟩

end GitOpener
